import Mathlib

/-!
Verification of the beatly-backend video-sharing service against its
specification.  The data model and operations below are a shallow embedding of
the JavaScript source: Mongoose documents become Lean structures, the MongoDB
collections become lists of documents threaded through each handler, the Azure
blob store becomes a list of stored blob URLs, and external effects (bcrypt,
jwt, Azure uploads, ffmpeg/sharp thumbnail derivation) become explicit oracle
parameters.  Each controller returns a response record mirroring the JSON it
sends, paired with the updated state.
-/

/-- JS truthiness of a request-body string field: `undefined` and the empty
string are both falsy (`!name`). -/
def present : Option String → Bool
  | some s => s != ""
  | none => false

/-- A stored User document (models/User.js): name, unique email, bcrypt-hashed
password, role. -/
structure UserDoc where
  id : Nat
  name : String
  email : String
  password : String
  role : String
deriving DecidableEq, Repr

/-- The public projection of a user (`select('-password')`, and the `user`
object returned by signup/login). -/
structure UserView where
  id : Nat
  name : String
  email : String
  role : String
deriving DecidableEq, Repr

def UserDoc.toView (u : UserDoc) : UserView :=
  { id := u.id, name := u.name, email := u.email, role := u.role }

/-- The claims signed into a session token by `jwt.sign` (signing itself is
abstracted away: a token is represented by its claims). -/
structure TokenClaims where
  id : Nat
  name : String
  email : String
  role : String
deriving DecidableEq, Repr

/-- Response shape of the auth controller endpoints (register/login): HTTP
status plus the `{error, details}` body on failure, or `{user, token}` on
success. -/
structure AuthResp where
  status : Nat
  error : Option String := none
  details : Option String := none
  user : Option UserView := none
  token : Option TokenClaims := none
deriving DecidableEq, Repr

/-- `exports.register` (controllers/auth.js).  Checks field presence, rejects a
duplicate email with status 400 and error `User already exists`, otherwise
hashes the password (oracle `hash`), stores the user with role forced to
`consumer`, and returns a token plus the public projection.  Returns the
response together with the updated user collection. -/
def register (db : List UserDoc) (name email password : Option String)
    (hash : String → String) (nextId : Nat) : AuthResp × List UserDoc :=
  if ¬ (present name ∧ present email ∧ present password) then
    ({ status := 400, error := some "Missing required fields",
       details := some "Name, email, and password are required" }, db)
  else
    let e := email.getD ""
    match db.find? (fun u => u.email == e) with
    | some _ =>
      ({ status := 400, error := some "User already exists",
         details := some "An account with this email already exists" }, db)
    | none =>
      let newUser : UserDoc :=
        { id := nextId, name := name.getD "", email := e,
          password := hash (password.getD ""), role := "consumer" }
      ({ status := 201, user := some newUser.toView,
         token := some { id := nextId, name := newUser.name, email := newUser.email,
                         role := newUser.role } }, db ++ [newUser])

/-- `exports.login` (controllers/auth.js).  The bcrypt comparison is the
oracle `compare` (plaintext, stored hash ↦ match).  Unknown email and wrong
password both produce the same `401` body. -/
def login (db : List UserDoc) (email password : Option String)
    (compare : String → String → Bool) : AuthResp :=
  if ¬ (present email ∧ present password) then
    { status := 400, error := some "Missing credentials",
      details := some "Email and password are required" }
  else
    match db.find? (fun u => u.email == email.getD "") with
    | none =>
      { status := 401, error := some "Authentication failed",
        details := some "Invalid email or password" }
    | some user =>
      if ¬ compare (password.getD "") user.password then
        { status := 401, error := some "Authentication failed",
          details := some "Invalid email or password" }
      else
        { status := 200, user := some user.toView,
          token := some { id := user.id, name := user.name, email := user.email,
                          role := user.role } }

/-- A stored Video document (models/Video.js): the schema paths are `title`,
`description`, `url`, `thumbnail` (default null), `tags`, `uploadedBy`,
`status` (default `pending`), `views` (default 0), `likes` (default 0),
`likedBy`, `comments` count and the timestamps. -/
structure VideoDoc where
  id : Nat
  title : String
  description : String
  url : String
  thumbnail : Option String := none
  tags : List String
  uploadedBy : Nat
  status : String := "pending"
  views : Int := 0
  likes : Int := 0
  likedBy : List Nat := []
  commentsCount : Int := 0
  createdAt : Nat := 0
deriving DecidableEq, Repr

/-- A stored Comment document (models/Comment.js): text, a reference to the
parent video, a reference to the authoring user, and a timestamp. -/
structure CommentDoc where
  id : Nat
  video : Nat
  user : Nat
  text : String
  createdAt : Nat := 0
deriving DecidableEq, Repr

/-- The durable state the controllers act on: the `videos` and `comments`
collections plus the set of blob URLs currently held in Azure storage. -/
structure AppState where
  videos : List VideoDoc
  comments : List CommentDoc
  blobs : List String
deriving DecidableEq, Repr

/-- Schema method `toggleLike(userId)`: `indexOf` finds the first occurrence
of the caller's id in `likedBy`; if present, `splice` removes it and `likes`
is decremented, otherwise the id is pushed and `likes` incremented
(models/Video.js lines 73-85).  `List.erase` removes exactly the first
occurrence, matching `splice(indexOf(userId), 1)`. -/
def VideoDoc.toggleLike (v : VideoDoc) (userId : Nat) : VideoDoc :=
  if userId ∈ v.likedBy then
    { v with likedBy := v.likedBy.erase userId, likes := v.likes - 1 }
  else
    { v with likedBy := v.likedBy ++ [userId], likes := v.likes + 1 }

/-- Schema method `incrementViews()`: bumps the view counter by one. -/
def VideoDoc.incrementViews (v : VideoDoc) : VideoDoc :=
  { v with views := v.views + 1 }

/-- Read of the non-schema path `video.videoUrl` in `deleteVideo`.  The Video
schema defines `url`, not `videoUrl`, so on a Mongoose document this property
access yields `undefined`. -/
def VideoDoc.videoUrl (_ : VideoDoc) : Option String := none

/-- Read of the non-schema path `video.thumbnailUrl` in `deleteVideo`.  The
Video schema defines `thumbnail`, not `thumbnailUrl`, so this property access
yields `undefined`. -/
def VideoDoc.thumbnailUrl (_ : VideoDoc) : Option String := none

/-- JS `String.prototype.toLowerCase` restricted to the ASCII range the
repository's tags use: lowercase each character. -/
def jsToLower (s : String) : String := String.mk (s.data.map Char.toLower)

/-- ASCII whitespace, the cases of JS `trim` exercised by this repository. -/
def isSpaceChar (c : Char) : Bool := c == ' ' || c == '\t' || c == '\n' || c == '\r'

/-- JS `String.prototype.trim`: strip leading and trailing whitespace. -/
def jsTrim (s : String) : String :=
  String.mk (((s.data.dropWhile isSpaceChar).reverse.dropWhile isSpaceChar).reverse)

/-- Helper for `jsSplit`: split a character list on a separator, `acc` holding
the current (reversed) segment. -/
def splitCharsAux (sep : Char) : List Char → List Char → List (List Char)
  | [], acc => [acc.reverse]
  | c :: cs, acc =>
    if c == sep then acc.reverse :: splitCharsAux sep cs []
    else splitCharsAux sep cs (c :: acc)

/-- JS `String.prototype.split` with a single-character separator, as in
`tagsInput.split(',')`. -/
def jsSplit (s : String) (sep : Char) : List String :=
  (splitCharsAux sep s.data []).map String.mk

/-- `[...new Set(xs)]` in JS: drop duplicates, keeping the first occurrence of
each element in insertion order.  `seen` accumulates the elements already
emitted. -/
def setDedup (seen : List String) : List String → List String
  | [] => []
  | a :: l =>
    if a ∈ seen then setDedup seen l
    else a :: setDedup (a :: seen) l

/-- The `pre('save')` hook of VideoSchema (models/Video.js lines 90-95):
before every save, tags are re-trimmed, lowercased and deduplicated. -/
def applySaveHook (v : VideoDoc) : VideoDoc :=
  { v with tags := setDedup [] (v.tags.map (fun t => jsToLower (jsTrim t))) }

/-- The `tags` value arriving in `req.body`: absent, a single string, or an
array of strings. -/
inductive TagsInput where
  | missing : TagsInput
  | str : String → TagsInput
  | arr : List String → TagsInput
deriving DecidableEq, Repr

/-- Core of `validateAndSanitizeTags` applied to the tag array: trim and
lowercase each entry, drop empties (`tag.length > 0`), require at least one
and at most ten of these sanitized entries, then dedupe via `new Set`. -/
def sanitizeTagArray (tagsArray : List String) : Except String (List String) :=
  let sanitizedTags :=
    (tagsArray.map (fun t => jsToLower (jsTrim t))).filter (fun t => decide (0 < t.length))
  if sanitizedTags.length = 0 then
    Except.error "At least one valid tag is required"
  else if sanitizedTags.length > 10 then
    Except.error "Maximum of 10 tags allowed"
  else
    Except.ok (setDedup [] sanitizedTags)

/-- `validateAndSanitizeTags` (controllers/video.js lines 113-138).  A falsy
input (`undefined` or the empty string — the empty array is truthy in JS)
fails with `Tags are required`; a string is split on commas; then
`sanitizeTagArray` runs. -/
def validateAndSanitizeTags : TagsInput → Except String (List String)
  | TagsInput.missing => Except.error "Tags are required"
  | TagsInput.str s =>
      if s = "" then Except.error "Tags are required"
      else sanitizeTagArray (jsSplit s ',')
  | TagsInput.arr l => sanitizeTagArray l

/-- Result of the `authenticate` middleware: either an early `401` response, or
`next()` is called with `req.user` set to whatever `User.findById` returned —
possibly `null` when the signed subject no longer resolves to a stored user. -/
inductive AuthOutcome where
  | reject : Nat → String → AuthOutcome
  | proceed : Option UserView → AuthOutcome
deriving DecidableEq, Repr

/-- Whether an `authenticate` outcome is a 401 rejection. -/
def AuthOutcome.isUnauthorized : AuthOutcome → Bool
  | AuthOutcome.reject 401 _ => true
  | _ => false

/-- `exports.authenticate` (middleware/auth.js).  The token is the second
space-separated word of the Authorization header; `jwt.verify` is the oracle
`verify` (`none` models a malformed or expired token, which throws).  On a
verified token the middleware assigns `req.user = await User.findById(...)`
and calls `next()` unconditionally: a token whose subject id matches no stored
user proceeds with `req.user = null`. -/
def authenticate (users : List UserDoc) (authHeader : Option String)
    (verify : String → Option TokenClaims) : AuthOutcome :=
  match authHeader.bind (fun h => (jsSplit h ' ')[1]?) with
  | none => AuthOutcome.reject 401 "Access denied. No token provided."
  | some t =>
    match verify t with
    | none => AuthOutcome.reject 401 "Invalid or expired token."
    | some decoded =>
      AuthOutcome.proceed ((users.find? (fun u => u.id == decoded.id)).map UserDoc.toView)

/-- Apply `f` to the first list entry satisfying `p`, as a MongoDB
`findByIdAndUpdate` / `updateOne` on a unique `_id` does. -/
def updateFirst (p : VideoDoc → Bool) (f : VideoDoc → VideoDoc) :
    List VideoDoc → List VideoDoc
  | [] => []
  | v :: vs => if p v then f v :: vs else v :: updateFirst p f vs

/-- Remove the first list entry satisfying `p` (`deleteOne` on `_id`). -/
def removeFirst (p : VideoDoc → Bool) : List VideoDoc → List VideoDoc
  | [] => []
  | v :: vs => if p v then vs else v :: removeFirst p vs

/-- Insert a comment into a list sorted by descending `createdAt`. -/
def insertByCreatedDesc (c : CommentDoc) : List CommentDoc → List CommentDoc
  | [] => [c]
  | d :: ds =>
    if c.createdAt ≥ d.createdAt then c :: d :: ds
    else d :: insertByCreatedDesc c ds

/-- `.sort({ createdAt: -1 })`: newest first. -/
def sortByCreatedDesc : List CommentDoc → List CommentDoc
  | [] => []
  | c :: cs => insertByCreatedDesc c (sortByCreatedDesc cs)

/-- Response of `GET /api/videos/:id`: status, error body, and on success the
video (as fetched, before the view increment is written) plus its comments
newest-first. -/
structure VideoPageResp where
  status : Nat
  error : Option String := none
  details : Option String := none
  video : Option VideoDoc := none
  comments : List CommentDoc := []
deriving DecidableEq, Repr

/-- `exports.getVideoById` (controllers/video.js lines 350-405).  `idValid`
models `mongoose.Types.ObjectId.isValid` on the raw path parameter.  The video
is fetched first (`.lean()` snapshot, returned as-is); when its status is
`approved`, `findByIdAndUpdate` then increments `views` by 1 in the
collection, so the response shows the pre-increment count. -/
def getVideoById (st : AppState) (idValid : Bool) (vid : Nat) (role : String) :
    VideoPageResp × AppState :=
  if ¬ idValid then
    ({ status := 400, error := some "Invalid video ID" }, st)
  else
    match st.videos.find? (fun v => v.id == vid) with
    | none => ({ status := 404, error := some "Video not found" }, st)
    | some video =>
      if role == "consumer" && video.status != "approved" then
        ({ status := 403, error := some "Video not available" }, st)
      else
        let videos1 :=
          if video.status == "approved" then
            updateFirst (fun v => v.id == vid)
              (fun v => { v with views := v.views + 1 }) st.videos
          else st.videos
        ({ status := 200, video := some video,
           comments := sortByCreatedDesc (st.comments.filter (fun c => c.video == vid)) },
         { st with videos := videos1 })

/-- Response of `POST /api/videos/:id/like`. -/
structure LikeResp where
  status : Nat
  error : Option String := none
  likes : Option Int := none
deriving DecidableEq, Repr

/-- `exports.likeVideo` (controllers/video.js lines 407-445): find the video,
404 when absent, 403 unless the caller's role is `consumer`, otherwise
`video.toggleLike(req.user._id)` mutates and saves the document (running the
tag-normalizing pre-save hook) and the response reports the updated in-memory
`video.likes`. -/
def likeVideo (st : AppState) (vid : Nat) (userId : Nat) (role : String) :
    LikeResp × AppState :=
  match st.videos.find? (fun v => v.id == vid) with
  | none => ({ status := 404, error := some "Video not found" }, st)
  | some video =>
    if role != "consumer" then
      ({ status := 403, error := some "Not authorized to like videos" }, st)
    else
      let toggled := applySaveHook (video.toggleLike userId)
      ({ status := 200, likes := some toggled.likes },
       { st with videos := updateFirst (fun v => v.id == vid) (fun _ => toggled) st.videos })

/-- Response of `DELETE /api/videos/:id`. -/
structure DeleteResp where
  status : Nat
  error : Option String := none
  message : Option String := none
deriving DecidableEq, Repr

/-- `url.split('/').pop()`: the blob name used when deleting from Azure. -/
def lastSegment (u : String) : String := ((jsSplit u '/').getLast?).getD ""

/-- `exports.deleteVideo` (controllers/video.js lines 673-739): find the
video, 404 when absent, 403 unless admin; `Comment.deleteMany({video})` then
`Video.deleteOne({_id})`; finally a try/catch block attempts to delete the
blobs, guarded by `if (video.videoUrl)` and `if (video.thumbnailUrl)` — reads
of paths the schema does not define, which yield `undefined`, so neither
deletion ever runs.  A storage failure (`blobDeleteOk` false) would be caught
and logged, aborting only the remaining blob deletions, never the response or
the database deletes. -/
def deleteVideo (st : AppState) (vid : Nat) (role : String)
    (blobDeleteOk : String → Bool) : DeleteResp × AppState :=
  match st.videos.find? (fun v => v.id == vid) with
  | none => ({ status := 404, error := some "Video not found" }, st)
  | some video =>
    if role != "admin" then
      ({ status := 403, error := some "Not authorized to delete videos" }, st)
    else
      let comments1 := st.comments.filter (fun c => !(c.video == vid))
      let videos1 := removeFirst (fun v => v.id == vid) st.videos
      let blobs1 :=
        match video.videoUrl with
        | some u =>
          if blobDeleteOk (lastSegment u) then
            let afterVid := st.blobs.erase (lastSegment u)
            match video.thumbnailUrl with
            | some t =>
              if blobDeleteOk (lastSegment t) then afterVid.erase (lastSegment t)
              else afterVid
            | none => afterVid
          else st.blobs
        | none =>
          match video.thumbnailUrl with
          | some t =>
            if blobDeleteOk (lastSegment t) then st.blobs.erase (lastSegment t)
            else st.blobs
          | none => st.blobs
      ({ status := 200,
         message := some "Video and associated comments deleted successfully" },
       { videos := videos1, comments := comments1, blobs := blobs1 })

/-- A multipart file as multer delivers it (buffer contents abstracted). -/
structure UploadFile where
  originalname : String
  mimetype : String
  size : Nat
deriving DecidableEq, Repr

/-- Oracles for the external effects of the upload pipeline: the Azure upload
of the video buffer, the Azure upload of a supplied thumbnail, the
ffmpeg+sharp thumbnail derivation, the Azure upload of the derived thumbnail,
and whether `video.save()` succeeds.  `Except.ok` carries the resulting blob
URL (or derived buffer id); `Except.error` carries the thrown message. -/
structure UploadOracles where
  vidUp : Except String String
  thumbUp : Except String String
  derive : Except String String
  deriveUp : Except String String
  saveOk : Bool

/-- Response of `POST /api/videos/upload`. -/
structure UploadResp where
  status : Nat
  error : Option String := none
  details : Option String := none
  videoOut : Option VideoDoc := none
deriving DecidableEq, Repr

/-- Final step of `uploadVideo`: build the Video record (status `approved`
exactly when the uploader's role is admin, schema defaults for views, likes,
likedBy) and `save()` it, the pre-save hook normalizing tags. -/
def persistVideo (st : AppState) (role : String) (userId : Nat)
    (title description : String) (sanitizedTags : List String)
    (videoUrl : String) (thumbnailUrl : Option String) (saveOk : Bool)
    (nextId : Nat) : UploadResp × AppState :=
  let video : VideoDoc :=
    { id := nextId, title := title, description := description, url := videoUrl,
      thumbnail := thumbnailUrl, tags := sanitizedTags, uploadedBy := userId,
      status := if role == "admin" then "approved" else "pending" }
  if saveOk then
    let saved := applySaveHook video
    ({ status := 201, videoOut := some saved },
     { st with videos := st.videos ++ [saved] })
  else
    ({ status := 500, error := some "Video upload failed" }, st)

/-- `exports.uploadVideo` (controllers/video.js lines 140-292): validate title
and description presence and length, validate tags, require the admin role and
a video file; upload the video buffer to Azure (failure escapes to the outer
catch → 500); then, if a thumbnail file was supplied, upload it — a failure
here also escapes to the outer catch → 500 with the video blob already stored
— otherwise derive a thumbnail and upload it inside an inner try whose catch
logs and continues with a null thumbnail; finally persist the record and
answer 201. -/
def uploadVideo (st : AppState) (role : String) (userId : Nat)
    (title description : Option String) (tags : TagsInput)
    (videoFile thumbnailFile : Option UploadFile) (o : UploadOracles)
    (nextId : Nat) : UploadResp × AppState :=
  if ¬ present title then
    ({ status := 400, error := some "Title is required" }, st)
  else if (title.getD "").length < 3 ∨ 100 < (title.getD "").length then
    ({ status := 400, error := some "Title must be between 3 and 100 characters" }, st)
  else if ¬ present description then
    ({ status := 400, error := some "Description is required" }, st)
  else if (description.getD "").length < 10 ∨ 500 < (description.getD "").length then
    ({ status := 400,
       error := some "Description must be between 10 and 500 characters" }, st)
  else
    match validateAndSanitizeTags tags with
    | Except.error msg => ({ status := 400, error := some msg }, st)
    | Except.ok sanitizedTags =>
      if role != "admin" then
        ({ status := 403, error := some "Not authorized to upload videos" }, st)
      else
        match videoFile with
        | none => ({ status := 400, error := some "Video file is required" }, st)
        | some _vf =>
          match o.vidUp with
          | Except.error e =>
            ({ status := 500, error := some "Video upload failed", details := some e }, st)
          | Except.ok videoUrl =>
            let st1 : AppState := { st with blobs := st.blobs ++ [videoUrl] }
            match thumbnailFile with
            | some _tf =>
              match o.thumbUp with
              | Except.error e =>
                ({ status := 500, error := some "Video upload failed",
                   details := some e }, st1)
              | Except.ok thUrl =>
                persistVideo { st1 with blobs := st1.blobs ++ [thUrl] } role userId
                  (title.getD "") (description.getD "") sanitizedTags videoUrl
                  (some thUrl) o.saveOk nextId
            | none =>
              match o.derive with
              | Except.error _ =>
                persistVideo st1 role userId (title.getD "") (description.getD "")
                  sanitizedTags videoUrl none o.saveOk nextId
              | Except.ok _buf =>
                match o.deriveUp with
                | Except.error _ =>
                  persistVideo st1 role userId (title.getD "") (description.getD "")
                    sanitizedTags videoUrl none o.saveOk nextId
                | Except.ok thUrl =>
                  persistVideo { st1 with blobs := st1.blobs ++ [thUrl] } role userId
                    (title.getD "") (description.getD "") sanitizedTags videoUrl
                    (some thUrl) o.saveOk nextId

/-- The like-set/like-counter consistency invariant of a Video document: the
`likes` counter equals the size of `likedBy`. -/
def likesConsistent (v : VideoDoc) : Prop := v.likes = v.likedBy.length

/-- Fixture: a stored user, for concrete evaluations. -/
def exUserAlice : UserDoc :=
  { id := 1, name := "Alice", email := "alice@example.com",
    password := "$2a$10$hashA", role := "consumer" }

/-- Fixture: an approved stored video whose blobs are in the store. -/
def exVideo : VideoDoc :=
  { id := 1, title := "My Clip", description := "twenty characters!!!",
    url := "https://acc.blob.core.windows.net/media/videos/u1-v.mp4",
    thumbnail := some "https://acc.blob.core.windows.net/media/thumbnails/u2-t.png",
    tags := ["music"], uploadedBy := 9, status := "approved" }

/-- Fixture: app state holding `exVideo`, two comments (one on it, one on
another video), and the two blobs backing it. -/
def exState : AppState :=
  { videos := [exVideo],
    comments := [{ id := 1, video := 1, user := 2, text := "nice" },
                 { id := 2, video := 5, user := 3, text := "other" }],
    blobs := ["https://acc.blob.core.windows.net/media/videos/u1-v.mp4",
              "https://acc.blob.core.windows.net/media/thumbnails/u2-t.png"] }

/-- C1, counterexample: with a stored user holding `a@x.com`, a second signup
for the same email is answered with HTTP status 400 (body
`{error: "User already exists"}`), not the 409 Conflict status the claim
names, and the user collection is left unchanged. -/
theorem register_duplicate_email_returns_400_not_409 :
    (register [{ id := 1, name := "Alice", email := "a@x.com",
                 password := "h1", role := "consumer" }]
       (some "Bob") (some "a@x.com") (some "pw") (fun s => s) 2).1.status = 400
    ∧ (register [{ id := 1, name := "Alice", email := "a@x.com",
                   password := "h1", role := "consumer" }]
         (some "Bob") (some "a@x.com") (some "pw") (fun s => s) 2).1.status ≠ 409 := by
  constructor
  · rfl
  · decide

/-- C1, amended: for any two signups with the same email (all fields present),
the first succeeds with 201 and the second fails with status 400 and error
`User already exists` — the duplicate-email rejection reuses the BadRequest
status rather than 409 Conflict — and no second user is created (the user
collection after the second signup equals the collection after the first). -/
theorem register_duplicate_email_second_signup (db : List UserDoc)
    (n1 n2 e p1 p2 : String) (hash : String → String) (i1 i2 : Nat)
    (hn1 : n1 ≠ "") (hn2 : n2 ≠ "") (he : e ≠ "") (hp1 : p1 ≠ "") (hp2 : p2 ≠ "")
    (hdb : db.find? (fun u => u.email == e) = none) :
    (register db (some n1) (some e) (some p1) hash i1).1.status = 201
    ∧ (register (register db (some n1) (some e) (some p1) hash i1).2
         (some n2) (some e) (some p2) hash i2).1.status = 400
    ∧ (register (register db (some n1) (some e) (some p1) hash i1).2
         (some n2) (some e) (some p2) hash i2).1.error = some "User already exists"
    ∧ (register (register db (some n1) (some e) (some p1) hash i1).2
         (some n2) (some e) (some p2) hash i2).2
        = (register db (some n1) (some e) (some p1) hash i1).2 := by
  simp only [register, present, Option.getD_some, bne_iff_ne, ne_eq, hn1, hn2, he, hp1,
    hp2, not_false_eq_true, and_self, not_true_eq_false, if_false, hdb,
    List.find?_append, Option.or_eq_bif]
  simp [List.find?_cons_of_pos, hdb]

/-- Witness for `register_duplicate_email_second_signup` at a concrete store
and inputs. -/
theorem register_duplicate_email_second_signup_witness :
    (register [] (some "Alice") (some "a@x.com") (some "pw1") (fun s => s) 1).1.status = 201
    ∧ (register (register [] (some "Alice") (some "a@x.com") (some "pw1") (fun s => s) 1).2
         (some "Bob") (some "a@x.com") (some "pw2") (fun s => s) 2).1.status = 400
    ∧ (register (register [] (some "Alice") (some "a@x.com") (some "pw1") (fun s => s) 1).2
         (some "Bob") (some "a@x.com") (some "pw2") (fun s => s) 2).1.error
        = some "User already exists"
    ∧ (register (register [] (some "Alice") (some "a@x.com") (some "pw1") (fun s => s) 1).2
         (some "Bob") (some "a@x.com") (some "pw2") (fun s => s) 2).2
        = (register [] (some "Alice") (some "a@x.com") (some "pw1") (fun s => s) 1).2 :=
  register_duplicate_email_second_signup [] "Alice" "Bob" "a@x.com" "pw1" "pw2"
    (fun s => s) 1 2 (by decide) (by decide) (by decide) (by decide) (by decide) rfl

/-- C9: a login attempt whose email matches no stored user and a login attempt
with an existing email but a failing password comparison produce the very same
response — status 401, error `Authentication failed`, details
`Invalid email or password` — so the body does not reveal whether the user
exists. -/
theorem login_generic_unauthorized_no_leak (db : List UserDoc)
    (e1 p1 e2 p2 : String) (u : UserDoc) (compare : String → String → Bool)
    (he1 : e1 ≠ "") (hp1 : p1 ≠ "") (he2 : e2 ≠ "") (hp2 : p2 ≠ "")
    (hmiss : db.find? (fun w => w.email == e1) = none)
    (hhit : db.find? (fun w => w.email == e2) = some u)
    (hcmp : compare p2 u.password = false) :
    login db (some e1) (some p1) compare = login db (some e2) (some p2) compare
    ∧ (login db (some e1) (some p1) compare).status = 401
    ∧ (login db (some e1) (some p1) compare).error = some "Authentication failed"
    ∧ (login db (some e1) (some p1) compare).details
        = some "Invalid email or password" := by
  simp [login, present, he1, hp1, he2, hp2, hmiss, hhit, hcmp]

/-- Witness for `login_generic_unauthorized_no_leak`: concrete store with one
user, one unknown-email attempt and one wrong-password attempt. -/
theorem login_generic_unauthorized_no_leak_witness :
    login [exUserAlice] (some "bob@example.com") (some "pw") (fun _ _ => false)
      = login [exUserAlice] (some "alice@example.com") (some "bad") (fun _ _ => false)
    ∧ (login [exUserAlice] (some "bob@example.com") (some "pw") (fun _ _ => false)).status = 401
    ∧ (login [exUserAlice] (some "bob@example.com") (some "pw") (fun _ _ => false)).error
        = some "Authentication failed"
    ∧ (login [exUserAlice] (some "bob@example.com") (some "pw") (fun _ _ => false)).details
        = some "Invalid email or password" :=
  login_generic_unauthorized_no_leak [exUserAlice] "bob@example.com" "pw"
    "alice@example.com" "bad" exUserAlice (fun _ _ => false)
    (by decide) (by decide) (by decide) (by decide) (by decide) (by decide) rfl

/-- C3, counterexample: with an empty user store and a verifier that accepts
the presented token (well-formed, unexpired) for subject id 7, `authenticate`
does not answer 401 at all — it calls `next()` with `req.user = null`, so the
request reaches business logic with an unresolved user. -/
theorem authenticate_unresolved_user_not_rejected :
    (authenticate [] (some "Bearer sometoken")
        (fun _ => some { id := 7, name := "Ghost", email := "g@x.com",
                         role := "consumer" })).isUnauthorized = false
    ∧ authenticate [] (some "Bearer sometoken")
        (fun _ => some { id := 7, name := "Ghost", email := "g@x.com",
                         role := "consumer" })
      = AuthOutcome.proceed none := by
  exact ⟨rfl, rfl⟩

/-- C3, amended: whenever a bearer token is present and verifies, but the
signed subject id resolves to no stored user, `authenticate` proceeds to the
next handler with `req.user = null` instead of failing with 401 Unauthorized. -/
theorem authenticate_unresolved_user_proceeds_null (users : List UserDoc)
    (header : Option String) (verify : String → Option TokenClaims) (t : String)
    (claims : TokenClaims)
    (htok : header.bind (fun s => (jsSplit s ' ')[1]?) = some t)
    (hver : verify t = some claims)
    (hmiss : users.find? (fun u => u.id == claims.id) = none) :
    authenticate users header verify = AuthOutcome.proceed none := by
  simp [authenticate, htok, hver, hmiss]

/-- Witness for `authenticate_unresolved_user_proceeds_null` at a concrete
header, verifier and empty store. -/
theorem authenticate_unresolved_user_proceeds_null_witness :
    authenticate [] (some "Bearer tok")
      (fun _ => some { id := 7, name := "Ghost", email := "g@x.com",
                       role := "consumer" })
      = AuthOutcome.proceed none :=
  authenticate_unresolved_user_proceeds_null [] (some "Bearer tok")
    (fun _ => some { id := 7, name := "Ghost", email := "g@x.com",
                     role := "consumer" })
    "tok" { id := 7, name := "Ghost", email := "g@x.com", role := "consumer" }
    rfl rfl rfl

/-- C4: for a video whose like-set holds the caller's id at most once (the
invariant `toggleLike` itself maintains), toggling twice restores the like
count, after one toggle the id is in the like-set iff that toggle was a
"like" (that is, iff the id was not yet a member), and one toggle increments
the count on a like and decrements it on an unlike. -/
theorem toggleLike_twice_restores_likes (v : VideoDoc) (u : Nat)
    (h : v.likedBy.count u ≤ 1) :
    ((v.toggleLike u).toggleLike u).likes = v.likes
    ∧ (u ∈ (v.toggleLike u).likedBy ↔ u ∉ v.likedBy)
    ∧ (v.toggleLike u).likes = (if u ∈ v.likedBy then v.likes - 1 else v.likes + 1) := by
  by_cases hm : u ∈ v.likedBy
  · have hcount : v.likedBy.count u = 1 :=
      le_antisymm h (List.count_pos_iff.mpr hm)
    have hgone : u ∉ v.likedBy.erase u := by
      have hc := List.count_erase_self u v.likedBy
      rw [hcount] at hc
      exact List.count_eq_zero.mp hc
    simp [VideoDoc.toggleLike, hm, hgone]
  · have hmem2 : u ∈ v.likedBy ++ [u] := List.mem_append_right _ (List.mem_singleton_self u)
    simp [VideoDoc.toggleLike, hm, hmem2]

/-- Witness for `toggleLike_twice_restores_likes`: a fresh video (empty
like-set) and user 5. -/
theorem toggleLike_twice_restores_likes_witness :
    ((exVideo.toggleLike 5).toggleLike 5).likes = exVideo.likes
    ∧ (5 ∈ (exVideo.toggleLike 5).likedBy ↔ 5 ∉ exVideo.likedBy)
    ∧ (exVideo.toggleLike 5).likes
        = (if 5 ∈ exVideo.likedBy then exVideo.likes - 1 else exVideo.likes + 1) :=
  toggleLike_twice_restores_likes exVideo 5 (by decide)

/-- C5: the `likes` counter equals the size of `likedBy` on a freshly created
Video record (schema defaults: counter 0, empty set), and this consistency is
preserved by `toggleLike`, by the view increment, and by the tag-normalizing
save hook — the only paths that write these documents. -/
theorem likes_matches_likedBy_invariant (v : VideoDoc) (u : Nat)
    (nid ub : Nat) (t d url : String) (th : Option String) (tags : List String)
    (stat : String) (h : likesConsistent v) :
    likesConsistent { id := nid, title := t, description := d, url := url,
                      thumbnail := th, tags := tags, uploadedBy := ub,
                      status := stat }
    ∧ likesConsistent (v.toggleLike u)
    ∧ likesConsistent v.incrementViews
    ∧ likesConsistent (applySaveHook v) := by
  refine ⟨by simp [likesConsistent], ?_, by simpa [likesConsistent, VideoDoc.incrementViews] using h,
    by simpa [likesConsistent, applySaveHook] using h⟩
  unfold likesConsistent at h ⊢
  unfold VideoDoc.toggleLike
  by_cases hm : u ∈ v.likedBy
  · have hlen : (v.likedBy.erase u).length = v.likedBy.length - 1 :=
      List.length_erase_of_mem hm
    have hpos : 0 < v.likedBy.length := List.length_pos_of_mem hm
    simp only [if_pos hm, hlen]
    omega
  · simp only [if_neg hm, List.length_append, List.length_singleton]
    omega

/-- Witness for `likes_matches_likedBy_invariant`: the fixture video (which is
consistent: 0 likes, empty like-set) and user 5. -/
theorem likes_matches_likedBy_invariant_witness :
    likesConsistent { id := 2, title := "T!!", description := "d!!!!!!!!!",
                      url := "u", thumbnail := none, tags := ["music"],
                      uploadedBy := 9, status := "approved" }
    ∧ likesConsistent (exVideo.toggleLike 5)
    ∧ likesConsistent exVideo.incrementViews
    ∧ likesConsistent (applySaveHook exVideo) :=
  likes_matches_likedBy_invariant exVideo 5 2 9 "T!!" "d!!!!!!!!!" "u" none
    ["music"] "approved" (by simp [likesConsistent, exVideo])

/-- C2: evaluation of `deleteVideo` on a concrete state exhibiting the defect.
The video's comments are all removed, the video record is deleted and the
request succeeds with 200, but the two blobs backing the video are still in
the store afterwards: the cleanup block guards on `video.videoUrl` and
`video.thumbnailUrl`, paths the schema does not define (it defines `url` and
`thumbnail`), so both guards see `undefined` and no blob deletion is ever
attempted. -/
theorem deleteVideo_cascades_but_blobs_survive :
    (deleteVideo exState 1 "admin" (fun _ => true)).1.status = 200
    ∧ ((deleteVideo exState 1 "admin" (fun _ => true)).2.comments.filter
        (fun c => c.video == 1)) = []
    ∧ ((deleteVideo exState 1 "admin" (fun _ => true)).2.videos.find?
        (fun v => v.id == 1)) = none
    ∧ (deleteVideo exState 1 "admin" (fun _ => true)).2.blobs = exState.blobs := by
  exact ⟨rfl, rfl, rfl, rfl⟩

/-- `find?` after `updateFirst` with a predicate the update preserves: the
first match is the updated image of the original first match. -/
theorem find?_updateFirst (p : VideoDoc → Bool) (f : VideoDoc → VideoDoc)
    (l : List VideoDoc) (hf : ∀ v, p v = true → p (f v) = true) :
    (updateFirst p f l).find? p = (l.find? p).map f := by
  induction l with
  | nil => rfl
  | cons v vs ih =>
    by_cases hv : p v = true
    · simp only [updateFirst, if_pos hv, List.find?_cons_of_pos _ (hf v hv),
        List.find?_cons_of_pos _ hv, Option.map_some']
    · simp only [updateFirst, if_neg hv, List.find?_cons_of_neg _ hv,
        List.find?_cons_of_neg _ hv, ih]

/-- C7: reading an approved video by a valid id succeeds and returns the
fetched snapshot, and the stored view counter is incremented by exactly 1, so
a second sequential read returns the same video with views `n + 1` where the
first returned `n`. -/
theorem getVideoById_increments_views_once (st : AppState) (vid : Nat)
    (role : String) (v : VideoDoc)
    (hfind : st.videos.find? (fun w => w.id == vid) = some v)
    (happ : v.status = "approved") :
    (getVideoById st true vid role).1.status = 200
    ∧ (getVideoById st true vid role).1.video = some v
    ∧ ((getVideoById st true vid role).2.videos.find? (fun w => w.id == vid))
        = some { v with views := v.views + 1 }
    ∧ (getVideoById (getVideoById st true vid role).2 true vid role).1.video
        = some { v with views := v.views + 1 } := by
  have hupd : ((updateFirst (fun w => w.id == vid)
      (fun w => { w with views := w.views + 1 }) st.videos).find? (fun w => w.id == vid))
      = some { v with views := v.views + 1 } := by
    rw [find?_updateFirst (fun w => w.id == vid)
        (fun w => { w with views := w.views + 1 }) st.videos (fun w hw => hw),
      hfind, Option.map_some']
  refine ⟨?_, ?_, ?_, ?_⟩ <;>
    simp [getVideoById, hfind, happ, hupd]

/-- Witness for `getVideoById_increments_views_once`: the fixture state, video
id 1, a consumer caller. -/
theorem getVideoById_increments_views_once_witness :
    (getVideoById exState true 1 "consumer").1.status = 200
    ∧ (getVideoById exState true 1 "consumer").1.video = some exVideo
    ∧ ((getVideoById exState true 1 "consumer").2.videos.find? (fun w => w.id == 1))
        = some { exVideo with views := exVideo.views + 1 }
    ∧ (getVideoById (getVideoById exState true 1 "consumer").2 true 1 "consumer").1.video
        = some { exVideo with views := exVideo.views + 1 } :=
  getVideoById_increments_views_once exState 1 "consumer" exVideo rfl rfl

/-- C6: an otherwise valid admin upload with no thumbnail file whose thumbnail
derivation fails still persists the Video record with a null thumbnail and
status `approved` and answers 201 — thumbnail failure alone never yields 500. -/
theorem uploadVideo_thumbnail_derivation_failure_still_201
    (st : AppState) (userId nextId : Nat) (t d : String) (tags : TagsInput)
    (stags : List String) (vf : UploadFile) (o : UploadOracles) (vurl emsg : String)
    (ht1 : 3 ≤ t.length) (ht2 : t.length ≤ 100)
    (hd1 : 10 ≤ d.length) (hd2 : d.length ≤ 500)
    (htags : validateAndSanitizeTags tags = Except.ok stags)
    (hvid : o.vidUp = Except.ok vurl)
    (hderive : o.derive = Except.error emsg)
    (hsave : o.saveOk = true) :
    (uploadVideo st "admin" userId (some t) (some d) tags (some vf) none o nextId).1.status
      = 201
    ∧ (uploadVideo st "admin" userId (some t) (some d) tags (some vf) none o nextId).1.videoOut
        = some (applySaveHook
            { id := nextId, title := t, description := d, url := vurl,
              thumbnail := none, tags := stags, uploadedBy := userId,
              status := "approved" })
    ∧ (applySaveHook
        { id := nextId, title := t, description := d, url := vurl,
          thumbnail := none, tags := stags, uploadedBy := userId,
          status := "approved" : VideoDoc }).thumbnail = none
    ∧ (applySaveHook
        { id := nextId, title := t, description := d, url := vurl,
          thumbnail := none, tags := stags, uploadedBy := userId,
          status := "approved" : VideoDoc }).status = "approved"
    ∧ (uploadVideo st "admin" userId (some t) (some d) tags (some vf) none o nextId).2.videos
        = st.videos ++ [applySaveHook
            { id := nextId, title := t, description := d, url := vurl,
              thumbnail := none, tags := stags, uploadedBy := userId,
              status := "approved" }] := by
  have htne : t ≠ "" := fun hcontra => by subst hcontra; exact absurd ht1 (by decide)
  have hdne : d ≠ "" := fun hcontra => by subst hcontra; exact absurd hd1 (by decide)
  have hc1 : ¬(t.length < 3 ∨ 100 < t.length) := by omega
  have hc2 : ¬(d.length < 10 ∨ 500 < d.length) := by omega
  refine ⟨?_, ?_, by simp [applySaveHook], by simp [applySaveHook], ?_⟩ <;>
    simp [uploadVideo, present, htne, hdne, hc1, hc2, htags, hvid, hderive,
      persistVideo, hsave, applySaveHook]

/-- Witness for `uploadVideo_thumbnail_derivation_failure_still_201` at a
concrete valid request whose ffmpeg step throws. -/
theorem uploadVideo_thumbnail_derivation_failure_still_201_witness :
    (uploadVideo exState "admin" 9 (some "My Clip") (some "twenty characters!!!")
        (TagsInput.str "music,live") (some { originalname := "v.mp4", mimetype := "video/mp4", size := 100 })
        none
        { vidUp := Except.ok "https://a/videos/u-v.mp4",
          thumbUp := Except.ok "unused", derive := Except.error "ffmpeg exited 1",
          deriveUp := Except.ok "unused", saveOk := true } 2).1.status = 201
    ∧ (uploadVideo exState "admin" 9 (some "My Clip") (some "twenty characters!!!")
        (TagsInput.str "music,live") (some { originalname := "v.mp4", mimetype := "video/mp4", size := 100 })
        none
        { vidUp := Except.ok "https://a/videos/u-v.mp4",
          thumbUp := Except.ok "unused", derive := Except.error "ffmpeg exited 1",
          deriveUp := Except.ok "unused", saveOk := true } 2).1.videoOut
        = some (applySaveHook
            { id := 2, title := "My Clip", description := "twenty characters!!!",
              url := "https://a/videos/u-v.mp4", thumbnail := none,
              tags := ["music", "live"], uploadedBy := 9, status := "approved" })
    ∧ (applySaveHook
        { id := 2, title := "My Clip", description := "twenty characters!!!",
          url := "https://a/videos/u-v.mp4", thumbnail := none,
          tags := ["music", "live"], uploadedBy := 9,
          status := "approved" : VideoDoc }).thumbnail = none
    ∧ (applySaveHook
        { id := 2, title := "My Clip", description := "twenty characters!!!",
          url := "https://a/videos/u-v.mp4", thumbnail := none,
          tags := ["music", "live"], uploadedBy := 9,
          status := "approved" : VideoDoc }).status = "approved"
    ∧ (uploadVideo exState "admin" 9 (some "My Clip") (some "twenty characters!!!")
        (TagsInput.str "music,live") (some { originalname := "v.mp4", mimetype := "video/mp4", size := 100 })
        none
        { vidUp := Except.ok "https://a/videos/u-v.mp4",
          thumbUp := Except.ok "unused", derive := Except.error "ffmpeg exited 1",
          deriveUp := Except.ok "unused", saveOk := true } 2).2.videos
        = exState.videos ++ [applySaveHook
            { id := 2, title := "My Clip", description := "twenty characters!!!",
              url := "https://a/videos/u-v.mp4", thumbnail := none,
              tags := ["music", "live"], uploadedBy := 9, status := "approved" }] :=
  uploadVideo_thumbnail_derivation_failure_still_201 exState 9 2 "My Clip"
    "twenty characters!!!" (TagsInput.str "music,live") ["music", "live"]
    { originalname := "v.mp4", mimetype := "video/mp4", size := 100 }
    { vidUp := Except.ok "https://a/videos/u-v.mp4", thumbUp := Except.ok "unused",
      derive := Except.error "ffmpeg exited 1", deriveUp := Except.ok "unused",
      saveOk := true }
    "https://a/videos/u-v.mp4" "ffmpeg exited 1"
    (by decide) (by decide) (by decide) (by decide) rfl rfl rfl rfl

/-- C10: an otherwise valid admin upload that supplies a thumbnail file whose
Azure upload fails answers 500 and persists no Video record, while the video
blob uploaded just before stays in the store — the non-fatal recovery covers
only the derivation path. -/
theorem uploadVideo_supplied_thumbnail_failure_500
    (st : AppState) (userId nextId : Nat) (t d : String) (tags : TagsInput)
    (stags : List String) (vf tf : UploadFile) (o : UploadOracles) (vurl emsg : String)
    (ht1 : 3 ≤ t.length) (ht2 : t.length ≤ 100)
    (hd1 : 10 ≤ d.length) (hd2 : d.length ≤ 500)
    (htags : validateAndSanitizeTags tags = Except.ok stags)
    (hvid : o.vidUp = Except.ok vurl)
    (hthumb : o.thumbUp = Except.error emsg) :
    (uploadVideo st "admin" userId (some t) (some d) tags (some vf) (some tf) o nextId).1.status
      = 500
    ∧ (uploadVideo st "admin" userId (some t) (some d) tags (some vf) (some tf) o nextId).1.error
        = some "Video upload failed"
    ∧ (uploadVideo st "admin" userId (some t) (some d) tags (some vf) (some tf) o nextId).2.videos
        = st.videos
    ∧ (uploadVideo st "admin" userId (some t) (some d) tags (some vf) (some tf) o nextId).2.blobs
        = st.blobs ++ [vurl] := by
  have htne : t ≠ "" := fun hcontra => by subst hcontra; exact absurd ht1 (by decide)
  have hdne : d ≠ "" := fun hcontra => by subst hcontra; exact absurd hd1 (by decide)
  have hc1 : ¬(t.length < 3 ∨ 100 < t.length) := by omega
  have hc2 : ¬(d.length < 10 ∨ 500 < d.length) := by omega
  refine ⟨?_, ?_, ?_, ?_⟩ <;>
    simp [uploadVideo, present, htne, hdne, hc1, hc2, htags, hvid, hthumb]

/-- Witness for `uploadVideo_supplied_thumbnail_failure_500` at a concrete
request whose supplied-thumbnail upload throws. -/
theorem uploadVideo_supplied_thumbnail_failure_500_witness :
    (uploadVideo exState "admin" 9 (some "My Clip") (some "twenty characters!!!")
        (TagsInput.str "music,live")
        (some { originalname := "v.mp4", mimetype := "video/mp4", size := 100 })
        (some { originalname := "t.png", mimetype := "image/png", size := 10 })
        { vidUp := Except.ok "https://a/videos/u-v.mp4",
          thumbUp := Except.error "storage timeout", derive := Except.ok "unused",
          deriveUp := Except.ok "unused", saveOk := true } 2).1.status = 500
    ∧ (uploadVideo exState "admin" 9 (some "My Clip") (some "twenty characters!!!")
        (TagsInput.str "music,live")
        (some { originalname := "v.mp4", mimetype := "video/mp4", size := 100 })
        (some { originalname := "t.png", mimetype := "image/png", size := 10 })
        { vidUp := Except.ok "https://a/videos/u-v.mp4",
          thumbUp := Except.error "storage timeout", derive := Except.ok "unused",
          deriveUp := Except.ok "unused", saveOk := true } 2).1.error
        = some "Video upload failed"
    ∧ (uploadVideo exState "admin" 9 (some "My Clip") (some "twenty characters!!!")
        (TagsInput.str "music,live")
        (some { originalname := "v.mp4", mimetype := "video/mp4", size := 100 })
        (some { originalname := "t.png", mimetype := "image/png", size := 10 })
        { vidUp := Except.ok "https://a/videos/u-v.mp4",
          thumbUp := Except.error "storage timeout", derive := Except.ok "unused",
          deriveUp := Except.ok "unused", saveOk := true } 2).2.videos
        = exState.videos
    ∧ (uploadVideo exState "admin" 9 (some "My Clip") (some "twenty characters!!!")
        (TagsInput.str "music,live")
        (some { originalname := "v.mp4", mimetype := "video/mp4", size := 100 })
        (some { originalname := "t.png", mimetype := "image/png", size := 10 })
        { vidUp := Except.ok "https://a/videos/u-v.mp4",
          thumbUp := Except.error "storage timeout", derive := Except.ok "unused",
          deriveUp := Except.ok "unused", saveOk := true } 2).2.blobs
        = exState.blobs ++ ["https://a/videos/u-v.mp4"] :=
  uploadVideo_supplied_thumbnail_failure_500 exState 9 2 "My Clip"
    "twenty characters!!!" (TagsInput.str "music,live") ["music", "live"]
    { originalname := "v.mp4", mimetype := "video/mp4", size := 100 }
    { originalname := "t.png", mimetype := "image/png", size := 10 }
    { vidUp := Except.ok "https://a/videos/u-v.mp4",
      thumbUp := Except.error "storage timeout", derive := Except.ok "unused",
      deriveUp := Except.ok "unused", saveOk := true }
    "https://a/videos/u-v.mp4" "storage timeout"
    (by decide) (by decide) (by decide) (by decide) rfl rfl rfl

/-- C8, counterexample: eleven copies of `music` sanitize to eleven entries,
so `validateAndSanitizeTags` rejects with `Maximum of 10 tags allowed` even
though the deduplicated result would have exactly 1 tag, within the claimed
1-10 bound: the 1-10 requirement is enforced before deduplication, not on the
deduplicated result. -/
theorem tags_bound_checked_before_dedup :
    validateAndSanitizeTags (TagsInput.arr (List.replicate 11 "music"))
      = Except.error "Maximum of 10 tags allowed"
    ∧ (setDedup [] (((List.replicate 11 "music").map
          (fun t => jsToLower (jsTrim t))).filter
          (fun t => decide (0 < t.length)))).length = 1 := by
  exact ⟨rfl, rfl⟩

/-- `[...new Set(l)]` is the identity on a duplicate-free list none of whose
elements were already seen. -/
theorem setDedup_eq_self (l : List String) : ∀ seen : List String,
    (∀ a ∈ l, a ∉ seen) → l.Nodup → setDedup seen l = l := by
  induction l with
  | nil => intro seen h1 h2; rfl
  | cons a l ih =>
    intro seen h1 h2
    rw [setDedup, if_neg (h1 a (List.mem_cons_self a l))]
    have ha : a ∉ l := (List.nodup_cons.mp h2).1
    have hsub : ∀ b ∈ l, b ∉ a :: seen := by
      intro b hb hbs
      rcases List.mem_cons.mp hbs with hba | hbs2
      · exact ha (hba ▸ hb)
      · exact h1 b (List.mem_cons_of_mem a hb) hbs2
    rw [ih (a :: seen) hsub (List.nodup_cons.mp h2).2]

/-- C8, amended: tag validation splits a single string on commas, trims,
lowercases and drops empty entries, requires between 1 and 10 of these
sanitized entries before deduplication (BadRequest otherwise), then
deduplicates keeping first occurrences.  It is the identity on an
already-normalized list of 1-10 tags, and `["Music", "music", " ROCK "]`
yields `["music", "rock"]` (as does the string form `"Music, live"` yield
`["music", "live"]`). -/
theorem tags_normalization_amended (l : List String)
    (hfix : ∀ t ∈ l, jsToLower (jsTrim t) = t)
    (hne : ∀ t ∈ l, 0 < t.length)
    (hnd : l.Nodup) (hlen : 0 < l.length) (hmax : l.length ≤ 10) :
    validateAndSanitizeTags (TagsInput.arr l) = Except.ok l
    ∧ validateAndSanitizeTags (TagsInput.arr ["Music", "music", " ROCK "])
        = Except.ok ["music", "rock"]
    ∧ validateAndSanitizeTags (TagsInput.str "Music, live")
        = Except.ok ["music", "live"] := by
  refine ⟨?_, rfl, rfl⟩
  have hmap : l.map (fun t => jsToLower (jsTrim t)) = l := by
    calc l.map (fun t => jsToLower (jsTrim t)) = l.map id :=
          List.map_congr_left (fun a ha => hfix a ha)
      _ = l := List.map_id l
  have hfil : l.filter (fun t => decide (0 < t.length)) = l :=
    List.filter_eq_self.mpr (fun a ha => by simpa using hne a ha)
  have hded : setDedup [] l = l := setDedup_eq_self l [] (by simp) hnd
  simp only [validateAndSanitizeTags, sanitizeTagArray, hmap, hfil]
  rw [if_neg (by omega), if_neg (by omega), hded]

/-- Witness for `tags_normalization_amended`: the normalized list
`["music", "rock"]`. -/
theorem tags_normalization_amended_witness :
    validateAndSanitizeTags (TagsInput.arr ["music", "rock"])
      = Except.ok ["music", "rock"]
    ∧ validateAndSanitizeTags (TagsInput.arr ["Music", "music", " ROCK "])
        = Except.ok ["music", "rock"]
    ∧ validateAndSanitizeTags (TagsInput.str "Music, live")
        = Except.ok ["music", "live"] :=
  tags_normalization_amended ["music", "rock"] (by decide) (by decide)
    (by decide) (by decide) (by decide)
